import Mathlib

/-
Verification development for the personalization/ranking subsystem of the
citizen-services portal (src/search_tracker.py, src/ai_categorizer.py,
src/ad_matcher.py), shallowly embedded in Lean.

Modelling conventions:
- MongoDB collections are Lean lists of typed documents; `find_one` is
  `List.find?` over the scan order, `count_documents` is `List.length` of a
  `List.filter`, `update_one` with a unique key maps over the list, and an
  upsert either replaces the matching document or appends.
- Timestamps are integers (seconds); `timedelta(hours=24)` is 86400,
  `timedelta(days=30)` is 2592000, and `(a - b).days` is floor division of
  the second difference by 86400 (Python timedelta floors toward minus
  infinity, `Int.fdiv`).
- Python dicts keep insertion order, so a dict built by repeated
  `d[k] = d.get(k, 0) + v` is an association list updated by `bump`.
- `Counter(xs).most_common(n)` lists distinct keys in first-encounter order
  with their multiplicities, stably sorted by count descending, truncated
  to n; it is modelled by `firstDedup`, `List.count`, `sortStable`, `take`.
- Python `list.sort` and the Mongo `$sort` stage are modelled by
  `sortStable`, a stable insertion sort taking a boolean `le` comparator.
- Python `set` values are modelled as lists managed by `firstDedup` /
  `addCat` / `List.dedup`; the claims about them only concern membership,
  which is insensitive to the arbitrary iteration order of a real set.
- Exceptions caught by a `try/except` around effectful code are modelled by
  an explicit `fetchOk : Bool` flag selecting the `except` branch; the code
  inside the embedded functions is otherwise total.
- BSON values keep their runtime type tag where it matters: `BVal.oid` is
  an ObjectId and `BVal.str` a string, and Mongo equality (as used by the
  `$lookup` join in `_get_default_ads`) never equates the two.
-/

/-- Lower-cases a string character by character, modelling Python str.lower
for the ASCII identifiers and queries handled by this system. -/
def lowerStr (s : String) : String := ⟨s.data.map Char.toLower⟩

/-- Accumulator-based whitespace splitter dropping empty chunks, modelling
Python str.split() with no arguments. -/
def splitWsAux : List Char → List Char → List (List Char)
  | [], acc => if acc.isEmpty then [] else [acc.reverse]
  | c :: cs, acc =>
      if c.isWhitespace then
        if acc.isEmpty then splitWsAux cs [] else acc.reverse :: splitWsAux cs []
      else splitWsAux cs (c :: acc)

/-- Python str.split(): split on whitespace runs, dropping empty tokens. -/
def splitWs (s : String) : List String := (splitWsAux s.data []).map (fun cs => ⟨cs⟩)

/-- Tests whether the first list starts the second, on characters. -/
def leadsChars : List Char → List Char → Bool
  | [], _ => true
  | _ :: _, [] => false
  | p :: ps, c :: cs => p == c && leadsChars ps cs

/-- Tests whether pat occurs contiguously in the list. -/
def subChars (pat : List Char) : List Char → Bool
  | [] => pat.isEmpty
  | c :: cs => leadsChars pat (c :: cs) || subChars pat cs

/-- Python `pat in s` substring containment on strings. -/
def strContains (s pat : String) : Bool := subChars pat.data s.data

/-- Stable insertion of x into l: x goes after every y with le y x, so a
later-arriving element lands after its ties. -/
def insertSorted (le : α → α → Bool) (x : α) : List α → List α
  | [] => [x]
  | y :: ys => if le y x then y :: insertSorted le x ys else x :: y :: ys

/-- Stable sort by the boolean comparator le, modelling Python list.sort
(stable) and the deterministic reading of a Mongo $sort stage. -/
def sortStable (le : α → α → Bool) (l : List α) : List α :=
  l.foldl (fun acc x => insertSorted le x acc) []

/-- Distinct elements of a list in first-encounter order, skipping anything
already seen; models the key order of a Python dict or Counter. -/
def firstDedupAux : List String → List String → List String
  | [], _ => []
  | x :: xs, seen =>
      if seen.contains x then firstDedupAux xs seen
      else x :: firstDedupAux xs (x :: seen)

/-- Distinct elements in first-encounter order. -/
def firstDedup (l : List String) : List String := firstDedupAux l []

/-- Association-list read with default 0, modelling dict.get(k, 0) for
natural-number values. -/
def lookupNat (l : List (String × Nat)) (k : String) : Nat :=
  match l.find? (fun p => p.1 == k) with
  | some p => p.2
  | none => 0

/-- Python `d[k] = d.get(k, 0) + v` on an insertion-ordered dict: add v to
the existing entry or append a fresh one. -/
def bump (scores : List (String × Int)) (k : String) (v : Int) : List (String × Int) :=
  if scores.any (fun p => p.1 == k) then
    scores.map (fun p => if p.1 == k then (p.1, p.2 + v) else p)
  else scores ++ [(k, v)]

/-- Python set.add on a membership-managed list. -/
def addCat (l : List String) (c : String) : List String :=
  if l.contains c then l else l ++ [c]

/- ===================== data model ===================== -/

/-- A document of the search_history collection (track_search insert). -/
structure SearchDoc where
  user_id : String
  query : String
  category : Option String
  timestamp : Int
  results_count : Nat
  clicked_result : Option String
  session_id : Option String
deriving DecidableEq

/-- A document of the user_search_patterns collection, the stored
InterestProfile (_update_search_patterns upsert). -/
structure PatternDoc where
  user_id : String
  search_count : Nat
  top_keywords : List (String × Nat)
  top_categories : List (String × Nat)
  interest_scores : List (String × Nat)
  last_updated : Int
  search_frequency : String
deriving DecidableEq

/-- The dict shape of the ai_categories field. -/
structure CatDict where
  categories : List String
  category_scores : List (String × Int)
  last_recategorized : Option Int
deriving DecidableEq

/-- Runtime shape of user["ai_categories"]: the code branches on
isinstance(dict) / isinstance(list) and treats anything else as empty. -/
inductive AICats where
  | dictForm (d : CatDict)
  | listForm (cats : List String)
  | otherForm
deriving DecidableEq

/-- A document of the users collection (the fields this subsystem reads). -/
structure UserDoc where
  _id : String
  age : Option Int
  location : Option String
  ai_categories : AICats
deriving DecidableEq

/-- A document of the products collection. age_range carries the min/max
values with the dict defaults (0 and 100) already applied; created_at is a
timestamp in seconds. -/
structure Product where
  _id : String
  title : Option String
  description : Option String
  price : Option Int
  category : String
  image_url : Option String
  target_categories : List String
  age_range : Option (Int × Int)
  target_locations : Option (List String)
  created_at : Option Int
  status : String
  stock : Option Int
deriving DecidableEq

/-- A document of ad_views (one per item shown to a user). -/
structure ViewEvent where
  user_id : String
  product_id : String
  timestamp : Int
deriving DecidableEq

/-- A document of ad_clicks; product_id is the string form of the product
id, exactly as track_ad_click stores what the HTTP layer sends. -/
structure ClickEvent where
  user_id : String
  product_id : String
  timestamp : Int
deriving DecidableEq

/-- The database state seen by the tracker, categorizer and ad matcher. -/
structure Db where
  products : List Product
  ad_views : List ViewEvent
  ad_clicks : List ClickEvent
  users : List UserDoc
  search_history : List SearchDoc
  search_patterns : List PatternDoc
deriving DecidableEq

/-- A BSON value tag: Mongo equality (used by $lookup) distinguishes an
ObjectId from the string with the same characters. -/
inductive BVal where
  | oid (s : String)
  | str (s : String)
deriving DecidableEq

/-- The ad record formatted for the frontend by get_personalized_ads and
_get_default_ads. -/
structure Ad where
  product_id : String
  title : Option String
  description : Option String
  price : Option Int
  category : String
  image_url : String
  relevance_score : Int
  link : String
deriving DecidableEq

/- ===================== search tracker ===================== -/

/-- Tokens of one query: lower-cased, whitespace-split, keeping words of
length > 2 (the word.strip() in the source is the identity after split()). -/
def keywordTokens (q : String) : List String :=
  (splitWs (lowerStr q)).filter (fun w => 2 < w.length)

/-- The searches scanned by _update_search_patterns: this user, timestamp
within the trailing 30 days, newest first. -/
def recentSearches (db : Db) (uid : String) (now : Int) : List SearchDoc :=
  sortStable (fun a b => decide (b.timestamp ≤ a.timestamp))
    (db.search_history.filter
      (fun s => s.user_id == uid && decide (now - 2592000 ≤ s.timestamp)))

/-- Counter(l) as an insertion-ordered association list: distinct keys in
first-encounter order, each with its multiplicity. -/
def counterPairs (l : List String) : List (String × Nat) :=
  (firstDedup l).map (fun k => (k, l.count k))

/-- Counter(l).most_common(n): stable sort by count descending (ties keep
first-encounter order), truncated to n. -/
def most_common (l : List String) (n : Nat) : List (String × Nat) :=
  (sortStable (fun a b => decide (b.2 ≤ a.2)) (counterPairs l)).take n

def education_keywords : List String :=
  ["school", "education", "course", "class", "study", "exam", "test",
   "book", "paper", "university", "college", "teacher", "student",
   "o/l", "a/l", "grade", "tuition", "scholarship", "admission"]

def health_keywords : List String :=
  ["health", "hospital", "doctor", "clinic", "medical", "medicine",
   "treatment", "disease", "vaccine", "appointment", "surgery"]

def business_keywords : List String :=
  ["business", "register", "company", "tax", "license", "permit",
   "trade", "enterprise", "startup", "vat", "commercial"]

def employment_keywords : List String :=
  ["job", "work", "employment", "career", "salary", "position",
   "hiring", "vacancy", "resume", "interview", "training"]

def tech_keywords : List String :=
  ["computer", "software", "internet", "online", "digital", "app",
   "website", "tech", "electronic", "mobile", "phone", "laptop"]

def transport_keywords : List String :=
  ["vehicle", "car", "license", "driving", "transport", "road",
   "traffic", "motor", "registration", "bike", "bus"]

def property_keywords : List String :=
  ["land", "house", "property", "deed", "building", "real estate",
   "rent", "buy", "apartment", "home", "construction"]

def immigration_keywords : List String :=
  ["passport", "visa", "travel", "immigration", "embassy",
   "foreign", "abroad", "migration", "citizen"]

/-- sum(1 for kw in user_keywords if kw in category_keywords). -/
def _keyword_match_score (user_keywords category_keywords : List String) : Nat :=
  (user_keywords.filter (fun kw => category_keywords.contains kw)).length

/-- SearchTracker._calculate_interest_scores: eight fixed topics scored by
matching the keys of the top-keyword table (the categories argument is
accepted and ignored, exactly as in the source). -/
def _calculate_interest_scores (keywords _categories : List (String × Nat)) :
    List (String × Nat) :=
  let keyword_list := keywords.map (fun p => p.1)
  [("education", _keyword_match_score keyword_list education_keywords),
   ("health", _keyword_match_score keyword_list health_keywords),
   ("business", _keyword_match_score keyword_list business_keywords),
   ("employment", _keyword_match_score keyword_list employment_keywords),
   ("technology", _keyword_match_score keyword_list tech_keywords),
   ("transport", _keyword_match_score keyword_list transport_keywords),
   ("property", _keyword_match_score keyword_list property_keywords),
   ("immigration", _keyword_match_score keyword_list immigration_keywords)]

/-- SearchTracker._calculate_search_frequency: search_count/days compared
against 5, 2 and 0.5, written here over exact integer arithmetic. -/
def _calculate_search_frequency (search_count days : Nat) : String :=
  if 5 * days ≤ search_count then "very_active"
  else if 2 * days ≤ search_count then "active"
  else if days ≤ 2 * search_count then "moderate"
  else "occasional"

/-- The InterestProfile document _update_search_patterns assembles from a
nonempty list of recent searches. -/
def buildPattern (uid : String) (now : Int) (searches : List SearchDoc) : PatternDoc :=
  let all_keywords := searches.flatMap (fun s => keywordTokens s.query)
  let categories := searches.filterMap
    (fun s => match s.category with
      | some c => if c == "" then none else some c
      | none => none)
  let top_keywords := most_common all_keywords 20
  let top_categories := most_common categories 10
  { user_id := uid
    search_count := searches.length
    top_keywords := top_keywords
    top_categories := top_categories
    interest_scores := _calculate_interest_scores top_keywords top_categories
    last_updated := now
    search_frequency := _calculate_search_frequency searches.length 30 }

/-- update_one on the user_id-unique patterns collection with upsert=True:
replace the matching document or append a new one. -/
def upsertPattern (l : List PatternDoc) (d : PatternDoc) : List PatternDoc :=
  if l.any (fun p => p.user_id == d.user_id) then
    l.map (fun p => if p.user_id == d.user_id then d else p)
  else l ++ [d]

/-- SearchTracker._update_search_patterns: recompute the InterestProfile
from the 30-day search window; a user with no searches in the window is a
no-op. -/
def _update_search_patterns (db : Db) (uid : String) (now : Int) : Db :=
  let searches := recentSearches db uid now
  if searches.isEmpty then db
  else { db with search_patterns := upsertPattern db.search_patterns (buildPattern uid now searches) }

/-- Reads the categories list out of an ai_categories value, following the
isinstance(dict)/isinstance(list)/else branches of the source. -/
def extractCategories : AICats → List String
  | .dictForm d => d.categories
  | .listForm cats => cats
  | .otherForm => []

/-- Guarded set growth: when cond holds, add the listed categories in order
(modelling a guarded run of set.add calls), otherwise leave the set alone. -/
def condAdd (cond : Bool) (names : List String) (l : List String) : List String :=
  if cond then names.foldl addCat l else l

/-- The category-growth chain of _recategorize_user: start from the
existing categories as a set, then run its eight guarded add blocks in
source order. -/
def newCategoriesOf (patterns : PatternDoc) (user : UserDoc) : List String :=
  let ints := patterns.interest_scores
  let c0 := firstDedup (extractCategories user.ai_categories)
  let c1 := condAdd (decide (5 ≤ lookupNat ints "education"))
      ["education_seeker", "course_buyer"] c0
  let c2 := condAdd (decide (3 ≤ lookupNat ints "technology"))
      ["tech_enthusiast", "electronics_buyer"] c1
  let c3 := condAdd (decide (3 ≤ lookupNat ints "business"))
      ["business_owner", "entrepreneur"] c2
  let c4 := condAdd (decide (3 ≤ lookupNat ints "employment"))
      ["job_seeker", "career_focused"] c3
  let c5 := condAdd (decide (3 ≤ lookupNat ints "property"))
      ["property_seeker", "property_investor"] c4
  let c6 := condAdd (decide (3 ≤ lookupNat ints "health")) ["health_focused"] c5
  let c7 := condAdd (decide (3 ≤ lookupNat ints "immigration"))
      ["travel_seeker", "passport_applicant"] c6
  condAdd (patterns.search_frequency == "active" || patterns.search_frequency == "very_active")
      ["power_user", "engaged_user"] c7

/-- SearchTracker._recategorize_user: read the stored patterns and the user
(each missing one is a quiet no-op), grow the category set from interest
scores and search frequency, and write it back in the original shape. -/
def _recategorize_user (db : Db) (uid : String) (now : Int) : Db :=
  match db.search_patterns.find? (fun p => p.user_id == uid) with
  | none => db
  | some patterns =>
    match db.users.find? (fun u => u._id == uid) with
    | none => db
    | some user =>
      let c8 := newCategoriesOf patterns user
      let newVal : AICats :=
        match user.ai_categories with
        | .dictForm d => .dictForm { d with categories := c8, last_recategorized := some now }
        | _ => .listForm c8
      let newUsers := db.users.map
        (fun u => if u._id == uid then { u with ai_categories := newVal } else u)
      { db with users := newUsers }

/-- SearchTracker.track_search: append the search document (query stored
lower-cased), then recompute the profile, then recategorize. -/
def track_search (db : Db) (uid : String) (query : String) (category : Option String)
    (results_count : Nat) (session_id : Option String) (now : Int) : Db :=
  let doc : SearchDoc :=
    { user_id := uid, query := lowerStr query, category := category, timestamp := now
      results_count := results_count, clicked_result := none, session_id := session_id }
  let db1 := { db with search_history := db.search_history ++ [doc] }
  let db2 := _update_search_patterns db1 uid now
  _recategorize_user db2 uid now

/- ===================== AI categorizer ===================== -/

/-- Result record of categorize_user_on_registration. -/
structure RegistrationCats where
  categories : List String
  category_scores : List (String × Int)
  categorized_at : Int
deriving DecidableEq

/-- Per-interest score bumps of the registration categorizer (the body of
its for-loop over the declared interests, already lower-cased). -/
def interestBumps (s : List (String × Int)) (i : String) : List (String × Int) :=
  let s := if i == "education" || i == "learning" then
      bump (bump (bump s "education_seeker" 35) "course_buyer" 30) "book_buyer" 25 else s
  let s := if i == "technology" || i == "tech" || i == "computers" then
      bump (bump s "tech_enthusiast" 35) "electronics_buyer" 30 else s
  let s := if i == "business" || i == "entrepreneurship" then
      bump (bump s "business_oriented" 35) "course_buyer" 20 else s
  let s := if i == "health" || i == "fitness" || i == "wellness" then
      bump s "health_focused" 35 else s
  let s := if i == "transport" || i == "vehicles" || i == "cars" then
      bump s "vehicle_buyer" 40 else s
  let s := if i == "housing" || i == "property" || i == "real estate" then
      bump s "property_seeker" 40 else s
  let s := if i == "employment" || i == "jobs" || i == "career" then
      bump (bump s "career_focused" 35) "course_buyer" 25 else s
  s

def urban_areas : List String := ["colombo", "kandy", "gampaha", "negombo", "moratuwa"]

/-- AIUserCategorizer.categorize_user_on_registration. age is None or the
integer age (Python treats age 0 as falsy, skipping the age rules); job and
location arrive as None or text and are lower-cased, with None and the
empty string both falsy. -/
def categorize_user_on_registration (age : Option Int) (jobIn : Option String)
    (locationIn : Option String) (interestsIn : List String) (now : Int) : RegistrationCats :=
  let job := match jobIn with | some j => lowerStr j | none => ""
  let location := match locationIn with | some l => lowerStr l | none => ""
  let interests := interestsIn.map lowerStr
  let s0 : List (String × Int) := []
  let ageStep : List String × List (String × Int) :=
    match age with
    | none => ([], s0)
    | some a =>
      if a == 0 then ([], s0)
      else if a < 25 then
        (["young_adult"], bump (bump s0 "education_seeker" 30) "tech_enthusiast" 20)
      else if a ≤ 35 then
        (["early_career"], bump (bump s0 "career_focused" 30) "property_seeker" 10)
      else if a ≤ 45 then
        (["mid_career_family"],
         bump (bump (bump s0 "family_oriented" 30) "property_seeker" 20) "vehicle_buyer" 20)
      else if a ≤ 60 then
        (["established_professional"],
         bump (bump s0 "investment_focused" 30) "property_investor" 25)
      else (["senior"], bump s0 "health_focused" 20)
  let cats1 := ageStep.1
  let s1 := ageStep.2
  let hit2 := strContains job "government" || strContains job "officer"
  let cats2 := if hit2 then cats1 ++ ["government_employee"] else cats1
  let s2 := if hit2 then bump (bump s1 "education_seeker" 25) "course_buyer" 20 else s1
  let hit3 := strContains job "teacher" || strContains job "lecturer" || strContains job "professor"
  let cats3 := if hit3 then cats2 ++ ["education_professional"] else cats2
  let s3 := if hit3 then bump (bump s2 "book_buyer" 40) "course_creator" 30 else s2
  let hit4 := strContains job "engineer" || strContains job "developer" ||
      strContains job "it" || strContains job "tech"
  let cats4 := if hit4 then cats3 ++ ["tech_professional"] else cats3
  let s4 := if hit4 then bump (bump s3 "tech_enthusiast" 40) "electronics_buyer" 35 else s3
  let hit5 := strContains job "manager" || strContains job "director" ||
      strContains job "ceo" || strContains job "executive"
  let cats5 := if hit5 then cats4 ++ ["management"] else cats4
  let s5 := if hit5 then bump (bump s4 "vehicle_buyer" 30) "property_investor" 25 else s4
  let hit6 := strContains job "business" || strContains job "entrepreneur" ||
      strContains job "owner"
  let cats6 := if hit6 then cats5 ++ ["business_owner"] else cats5
  let s6 := if hit6 then bump (bump s5 "investment_focused" 35) "property_investor" 30 else s5
  let hit7 := strContains job "student"
  let cats7 := if hit7 then cats6 ++ ["student"] else cats6
  let s7 := if hit7 then
      bump (bump (bump s6 "education_seeker" 50) "book_buyer" 45) "past_paper_buyer" 40 else s6
  let s8 := interests.foldl interestBumps s7
  let hitUrban := location != "" && urban_areas.any (fun city => strContains location city)
  let cats8 := if hitUrban then cats7 ++ ["urban_resident"] else cats7 ++ ["rural_resident"]
  let s9 := if hitUrban then bump (bump s8 "tech_enthusiast" 10) "electronics_buyer" 10 else s8
  let sorted_scores := sortStable (fun a b => decide (b.2 ≤ a.2)) s9
  let extra := (sorted_scores.take 5).filterMap
    (fun p => if 20 ≤ p.2 then some p.1 else none)
  { categories := (cats8 ++ extra).dedup
    category_scores := s9
    categorized_at := now }

/-- Per-query score bumps of recategorize_based_on_search (its per-search
substring rules over the lower-cased query). -/
def searchScoreBumps (s : List (String × Int)) (query : String) : List (String × Int) :=
  let q := lowerStr query
  let eduHit := strContains q "degree" || strContains q "course" || strContains q "education" ||
      strContains q "study" || strContains q "learn" || strContains q "class" ||
      strContains q "tuition"
  let s := if eduHit then bump (bump s "education_seeker" 5) "course_buyer" 4 else s
  let bookHit := strContains q "book" || strContains q "paper" || strContains q "past paper" ||
      strContains q "guide" || strContains q "notes"
  let s := if bookHit then bump (bump s "book_buyer" 5) "past_paper_buyer" 5 else s
  let techHit := strContains q "laptop" || strContains q "phone" || strContains q "computer" ||
      strContains q "gadget" || strContains q "tech" || strContains q "electronic"
  let s := if techHit then bump (bump s "tech_enthusiast" 5) "electronics_buyer" 6 else s
  let vehHit := strContains q "car" || strContains q "vehicle" || strContains q "bike" ||
      strContains q "motorcycle" || strContains q "van" || strContains q "auto"
  let s := if vehHit then bump s "vehicle_buyer" 6 else s
  let propHit := strContains q "land" || strContains q "house" || strContains q "property" ||
      strContains q "apartment" || strContains q "estate" || strContains q "plot"
  let s := if propHit then bump (bump s "property_seeker" 6) "property_investor" 4 else s
  let jobHit := strContains q "job" || strContains q "career" || strContains q "employment" ||
      strContains q "work" || strContains q "vacancy"
  let s := if jobHit then bump s "career_focused" 5 else s
  let newsHit := strContains q "news" || strContains q "newspaper" || strContains q "magazine" ||
      strContains q "article"
  let s := if newsHit then bump s "news_reader" 4 else s
  s

/-- AIUserCategorizer.recategorize_based_on_search: unknown user or empty
search history is a no-op. On a list-shaped or other-shaped ai_categories
the source raises AttributeError at current_categories.get before any
database write, so the state is likewise unchanged. -/
def recategorize_based_on_search (db : Db) (uid : String) (now : Int) : Db :=
  match db.users.find? (fun u => u._id == uid) with
  | none => db
  | some user =>
    let searches := (sortStable (fun a b => decide (b.timestamp ≤ a.timestamp))
        (db.search_history.filter (fun s => s.user_id == uid))).take 50
    if searches.isEmpty then db
    else
      match user.ai_categories with
      | .dictForm d =>
        let search_scores := searches.foldl (fun acc s => searchScoreBumps acc s.query) []
        let current_scores := search_scores.foldl (fun cs p => bump cs p.1 p.2) d.category_scores
        let new_categories := search_scores.foldl
          (fun nc p => if 15 ≤ p.2 && !(nc.contains p.1) then nc ++ [p.1] else nc) d.categories
        let newDict : CatDict :=
          { categories := new_categories.dedup
            category_scores := current_scores
            last_recategorized := some now }
        let newUsers := db.users.map
          (fun u => if u._id == uid then { u with ai_categories := .dictForm newDict } else u)
        { db with users := newUsers }
      | _ => db

/- ===================== ad matcher ===================== -/

/-- ad_clicks_col.count_documents on product_id, which the scorer queries
with str(product._id), a plain string compared to the stored strings. -/
def clicksCount (db : Db) (pid : String) : Nat :=
  (db.ad_clicks.filter (fun c => c.product_id == pid)).length

/-- ad_views_col.count_documents on product_id (all users). -/
def viewsCount (db : Db) (pid : String) : Nat :=
  (db.ad_views.filter (fun v => v.product_id == pid)).length

/-- Views of this product by this user in the trailing 24 hours
(timestamp at least now minus 86400 seconds). -/
def recentViewsCount (db : Db) (uid pid : String) (now : Int) : Nat :=
  (db.ad_views.filter
    (fun v => v.user_id == uid && v.product_id == pid && decide (now - 86400 ≤ v.timestamp))).length

/-- The fixed item-category to interest-topic table of
_calculate_relevance_score. -/
def category_interest_map : List (String × String) :=
  [("books", "education"), ("past_papers", "education"), ("study_guides", "education"),
   ("courses", "education"), ("electronics", "technology"), ("computers", "technology"),
   ("phones", "technology"), ("vehicles", "transport"), ("cars", "transport"),
   ("bikes", "transport"), ("property", "property"), ("land", "property"),
   ("houses", "property")]

/-- Term 1: 10 points per distinct category shared between the user set and
the target set (both are Python sets; the count is over distinct labels). -/
def categoryTerm (p : Product) (user_categories : List String) : Int :=
  10 * (((firstDedup user_categories).filter (fun c => p.target_categories.contains c)).length : Int)

/-- Term 2: map the item category through the interest table and add twice
the stored interest score when it is positive. -/
def interestTerm (p : Product) (interest_scores : List (String × Nat)) : Int :=
  match category_interest_map.find? (fun q => q.1 == lowerStr p.category) with
  | none => 0
  | some q =>
    let v := lookupNat interest_scores q.2
    if 0 < v then 2 * (v : Int) else 0

/-- Term 3: 5 points when the (truthy) user age lies inside the declared
age range, inclusive on both ends. -/
def ageTerm (p : Product) (user_age : Option Int) : Int :=
  match user_age, p.age_range with
  | some a, some r => if a != 0 && decide (r.1 ≤ a) && decide (a ≤ r.2) then 5 else 0
  | _, _ => 0

/-- Term 4: 3 points when the (truthy) user location is listed in the
target locations or the list carries the sentinel all. -/
def locationTerm (p : Product) (user_location : Option String) : Int :=
  match user_location, p.target_locations with
  | some loc, some tl => if loc != "" && (tl.contains loc || tl.contains "all") then 3 else 0
  | _, _ => 0

/-- Term 5: freshness boost from the creation timestamp, with the day count
floored as Python timedelta.days does. -/
def recencyTerm (p : Product) (now : Int) : Int :=
  match p.created_at with
  | none => 0
  | some c =>
    let days_old := Int.fdiv (now - c) 86400
    if days_old < 7 then 5 else if days_old < 30 then 2 else 0

/-- Term 6: int(ctr * 10) once views exceed 10; with nonnegative counts the
truncation is exactly Nat floor division of 10 * clicks by views. -/
def popularityTerm (db : Db) (pid : String) : Int :=
  let clicks := clicksCount db pid
  let views := viewsCount db pid
  if 10 < views then ((10 * clicks) / views : Nat) else 0

/-- Term 7: 5 points of penalty per view of this item by this user in the
trailing 24 hours. -/
def diversityPenalty (db : Db) (uid pid : String) (now : Int) : Int :=
  let rv := recentViewsCount db uid pid now
  if 0 < rv then 5 * (rv : Int) else 0

/-- The additive score of _calculate_relevance_score before the final
floor, accumulating its seven numbered blocks in source order. -/
def preclampScore (db : Db) (now : Int) (p : Product) (user_categories : List String)
    (interest_scores : List (String × Nat)) (user_age : Option Int)
    (user_location : Option String) (uid : String) : Int :=
  categoryTerm p user_categories + interestTerm p interest_scores + ageTerm p user_age +
    locationTerm p user_location + recencyTerm p now + popularityTerm db p._id -
    diversityPenalty db uid p._id now

/-- AdMatcher._calculate_relevance_score: the additive score floored at
zero by the final max(score, 0). -/
def _calculate_relevance_score (db : Db) (now : Int) (p : Product)
    (user_categories : List String) (interest_scores : List (String × Nat))
    (user_age : Option Int) (user_location : Option String) (uid : String) : Int :=
  max (preclampScore db now p user_categories interest_scores user_age user_location uid) 0

/-- The candidate query of get_personalized_ads: status approved, and stock
strictly positive or the stock field absent. -/
def activeProducts (db : Db) : List Product :=
  db.products.filter
    (fun p => p.status == "approved" &&
      (match p.stock with | some s => decide (0 < s) | none => true))

/-- The scoring loop of get_personalized_ads: score every candidate and
keep only those with score strictly greater than zero. -/
def scoredProducts (db : Db) (now : Int) (uid : String) (user_categories : List String)
    (interest_scores : List (String × Nat)) (user_age : Option Int)
    (user_location : Option String) : List (Product × Int) :=
  (activeProducts db).filterMap
    (fun p =>
      if 0 < _calculate_relevance_score db now p user_categories interest_scores
          user_age user_location uid
      then some (p, _calculate_relevance_score db now p user_categories interest_scores
          user_age user_location uid)
      else none)

/-- The frontend ad record assembled from a product and its score. -/
def formatAd (p : Product) (score : Int) : Ad :=
  { product_id := p._id
    title := p.title
    description := p.description
    price := p.price
    category := p.category
    image_url := p.image_url.getD "/static/placeholder.jpg"
    relevance_score := score
    link := "/product/" ++ p._id }

/-- The user category set read from ai_categories, following the
isinstance(dict)/isinstance(list)/else branches in get_personalized_ads. -/
def userCategoriesOf (u : UserDoc) : List String :=
  match u.ai_categories with
  | .dictForm d => d.categories
  | .listForm cats => cats
  | .otherForm => []

/-- interest_scores read from the stored patterns document, empty when the
user has none. -/
def interestScoresOf (db : Db) (uid : String) : List (String × Nat) :=
  match db.search_patterns.find? (fun sp => sp.user_id == uid) with
  | some sp => sp.interest_scores
  | none => []

/-- The personalized branch of get_personalized_ads: score, sort by
relevance descending (stable), truncate to limit, format. -/
def rankedSlate (db : Db) (uid : String) (u : UserDoc) (limit : Nat) (now : Int) : List Ad :=
  let ucats := userCategoriesOf u
  let ints := interestScoresOf db uid
  let scored := scoredProducts db now uid ucats ints u.age u.location
  let sorted := sortStable (fun a b => decide (b.2 ≤ a.2)) scored
  (sorted.take limit).map (fun q => formatAd q.1 q.2)

/-- The click count computed by the $lookup stage of _get_default_ads: it
equates the products _id field (a BSON ObjectId) with the ad_clicks
product_id field (a BSON string), so the BVal tags must agree. -/
def lookupClickCount (db : Db) (p : Product) : Nat :=
  (db.ad_clicks.filter (fun c => BVal.oid p._id == BVal.str c.product_id)).length

/-- AdMatcher._get_default_ads: approved items sorted by the $lookup click
count descending, truncated to limit * 2, shuffled (the random.shuffle is
the shuffle parameter), truncated to limit, formatted with score 0. -/
def _get_default_ads (db : Db) (limit : Nat) (shuffle : List Product → List Product) : List Ad :=
  let pipeline := sortStable
    (fun a b => decide (lookupClickCount db b ≤ lookupClickCount db a))
    (db.products.filter (fun p => p.status == "approved"))
  let products := (shuffle (pipeline.take (limit * 2))).take limit
  products.map (fun p => formatAd p 0)

/-- AdMatcher.get_personalized_ads: the try body resolves the user and runs
the personalized ranking; an unresolved user returns the default slate, and
fetchOk = false models any exception inside the try, which the except arm
also answers with the default slate. -/
def get_personalized_ads (db : Db) (user_id : String) (limit : Nat) (now : Int)
    (shuffle : List Product → List Product) (fetchOk : Bool) : List Ad :=
  if fetchOk then
    match db.users.find? (fun u => u._id == user_id) with
    | none => _get_default_ads db limit shuffle
    | some u => rankedSlate db user_id u limit now
  else _get_default_ads db limit shuffle

/- ===================== concrete fixtures ===================== -/

/-- A minimal approved product with every optional field absent. -/
def baseProduct : Product :=
  { _id := "p1", title := none, description := none, price := none, category := "misc",
    image_url := none, target_categories := [], age_range := none, target_locations := none,
    created_at := none, status := "approved", stock := none }

/-- The empty database. -/
def emptyDb : Db :=
  { products := [], ad_views := [], ad_clicks := [], users := [],
    search_history := [], search_patterns := [] }

/-- A search 90 days in the past, outside every 30-day window around 0. -/
def oldSearchW8 : SearchDoc :=
  { user_id := "u", query := "old passport query", category := none,
    timestamp := -7776000, results_count := 0, clicked_result := none,
    session_id := none }

/-- A stored pattern document for the C8 witness. -/
def patW8 : PatternDoc :=
  { user_id := "u", search_count := 1, top_keywords := [("passport", 1)],
    top_categories := [], interest_scores := [("immigration", 1)],
    last_updated := -7776000, search_frequency := "occasional" }

/-- Concrete state for the C8 witness: one stored pattern document, one
search 90 days old, no users. -/
def dbW8 : Db :=
  { emptyDb with search_history := [oldSearchW8], search_patterns := [patW8] }

/-- The category-label set of a user as stored in the users collection. -/
def categoryLabels (db : Db) (uid : String) : List String :=
  match db.users.find? (fun u => u._id == uid) with
  | none => []
  | some u => extractCategories u.ai_categories

/-- One recategorization pass over a user: the tracker-side pass, the
categorizer-side pass, or a whole tracked search (which triggers the
tracker-side pass after recomputing the profile). -/
inductive RecatPass where
  | trackerPass (now : Int)
  | categorizerPass (now : Int)
  | trackedSearch (query : String) (category : Option String) (results_count : Nat)
      (session_id : Option String) (now : Int)

/-- Run one recategorization pass against the state. -/
def runPass (db : Db) (uid : String) : RecatPass → Db
  | .trackerPass now => _recategorize_user db uid now
  | .categorizerPass now => recategorize_based_on_search db uid now
  | .trackedSearch q c r s now => track_search db uid q c r s now

/-- A stored pattern document whose education score crosses the 5-point
threshold, so a tracker pass really adds labels. -/
def patW2 : PatternDoc :=
  { user_id := "u", search_count := 3, top_keywords := [("school", 2), ("exam", 1)],
    top_categories := [], interest_scores := [("education", 6)],
    last_updated := 0, search_frequency := "occasional" }

/-- A user carrying one previously earned label. -/
def userW2 : UserDoc :=
  { _id := "u", age := none, location := none, ai_categories := AICats.listForm ["seed_cat"] }

/-- Concrete state for the C2 witness. -/
def dbW2 : Db := { emptyDb with users := [userW2], search_patterns := [patW2] }

/-- Concrete state for the C4 witness: 3 views, all of them clicked
(100 percent CTR on 3 views). -/
def dbW4 : Db :=
  { emptyDb with
      ad_views := List.replicate 3 { user_id := "o", product_id := "x", timestamp := 0 }
      ad_clicks := List.replicate 3 { user_id := "o", product_id := "x", timestamp := 0 } }

/-- The same state with the in-window views of this item by this user
removed: the otherwise-identical request with no such prior views. -/
def withoutRecentViews (db : Db) (uid pid : String) (now : Int) : Db :=
  let keep := db.ad_views.filter
    (fun v => !(v.user_id == uid && v.product_id == pid && decide (now - 86400 ≤ v.timestamp)))
  { db with ad_views := keep }

/-- The product scored in the diversity examples. -/
def px : Product := { baseProduct with _id := "x" }

/-- Diversity counterexample state: the user u saw item x once an hour ago;
ten older views by another user and eleven clicks put the item just past
the CTR gate. -/
def dbC5 : Db :=
  { emptyDb with
      products := [px]
      ad_views := { user_id := "u", product_id := "x", timestamp := -3600 } ::
        List.replicate 10 { user_id := "o", product_id := "x", timestamp := -200000 }
      ad_clicks := List.replicate 11 { user_id := "o", product_id := "x", timestamp := -100 } }

/-- Witness state for C5: a single in-window view, no clicks, so the CTR
term is 0 on both sides of the comparison. -/
def dbW5 : Db :=
  { emptyDb with
      products := [px]
      ad_views := [{ user_id := "u", product_id := "x", timestamp := -3600 }] }

/-- Witness state for the stale-view half of C5: the only view of x by u is
25 hours old. -/
def dbW5b : Db :=
  { emptyDb with
      products := [px]
      ad_views := [{ user_id := "u", product_id := "x", timestamp := -90000 }] }

/-- A user with no categories, no patterns, no age and no location. -/
def u1 : UserDoc :=
  { _id := "u1", age := none, location := none, ai_categories := AICats.dictForm ⟨[], [], none⟩ }

/-- C1 counterexample state: a resolvable user with no signals and a single
approved candidate with no matching attributes. -/
def dbC1 : Db := { emptyDb with products := [baseProduct], users := [u1] }

/-- A user holding one category label for the C1 witness. -/
def uW1 : UserDoc :=
  { _id := "u1", age := none, location := none,
    ai_categories := AICats.listForm ["education_seeker"] }

/-- A product targeting that label. -/
def pW1 : Product := { baseProduct with target_categories := ["education_seeker"] }

/-- Witness state for C1: the single candidate scores 10 and is returned. -/
def dbW1 : Db := { emptyDb with products := [pW1], users := [uW1] }

/-- An approved product whose stock field is present and zero. -/
def p0 : Product := { baseProduct with stock := some 0 }

/-- C6 counterexample state: the catalog holds only that product. -/
def dbC6 : Db := { emptyDb with products := [p0] }

/-- The two approved products of the C7 state. -/
def pA : Product := { baseProduct with _id := "a" }

def pB : Product := { baseProduct with _id := "b" }

/-- C7 state: no resolvable user, five recorded clicks on product b, none
on product a. -/
def dbC7 : Db :=
  { emptyDb with
      products := [pA, pB]
      ad_clicks := List.replicate 5 { user_id := "o", product_id := "b", timestamp := 0 } }

/-- The registration categorization of age=30, job="Software Engineer",
interests=["technology"], no location. -/
def regC9 : RegistrationCats :=
  categorize_user_on_registration (some 30) (some "Software Engineer") none ["technology"] 0

/-- Witness search log for C10: two searches inside any window. -/
def searchW10 : SearchDoc :=
  { user_id := "u", query := "School exam past Paper", category := some "education",
    timestamp := -100, results_count := 4, clicked_result := none, session_id := none }

/- ===================== theorems ===================== -/

/- ===================== generic lemmas ===================== -/

theorem mem_insertSorted (le : α → α → Bool) (x a : α) (l : List α) :
    a ∈ insertSorted le x l ↔ a = x ∨ a ∈ l := by
  induction l with
  | nil => simp [insertSorted]
  | cons y ys ih =>
      simp only [insertSorted]
      split
      · rw [List.mem_cons, ih, List.mem_cons]
        tauto
      · simp only [List.mem_cons]

theorem mem_sortStable (le : α → α → Bool) (a : α) (l : List α) :
    a ∈ sortStable le l ↔ a ∈ l := by
  suffices h : ∀ acc, a ∈ l.foldl (fun acc x => insertSorted le x acc) acc ↔ a ∈ acc ∨ a ∈ l by
    simpa [sortStable] using h []
  induction l with
  | nil => simp
  | cons y ys ih =>
      intro acc
      simp only [List.foldl_cons, ih, mem_insertSorted]
      simp
      tauto

theorem perm_insertSorted (le : α → α → Bool) (x : α) (l : List α) :
    (insertSorted le x l).Perm (x :: l) := by
  induction l with
  | nil => exact List.Perm.refl _
  | cons y ys ih =>
      simp only [insertSorted]
      split
      · exact (ih.cons y).trans (List.Perm.swap x y ys)
      · exact List.Perm.refl _

theorem perm_sortStable (le : α → α → Bool) (l : List α) :
    (sortStable le l).Perm l := by
  suffices h : ∀ acc, (l.foldl (fun acc x => insertSorted le x acc) acc).Perm (acc ++ l) by
    simpa [sortStable] using h []
  induction l with
  | nil => intro acc; simp
  | cons y ys ih =>
      intro acc
      simp only [List.foldl_cons]
      refine (ih (insertSorted le y acc)).trans ?_
      exact ((perm_insertSorted le y acc).append_right ys).trans List.perm_middle.symm

theorem mem_firstDedupAux (a : String) :
    ∀ (l seen : List String), a ∈ firstDedupAux l seen ↔ a ∈ l ∧ ¬ a ∈ seen := by
  intro l
  induction l with
  | nil => intro seen; simp [firstDedupAux]
  | cons x xs ih =>
      intro seen
      simp only [firstDedupAux]
      by_cases hx : seen.contains x
      · have hxs : x ∈ seen := by simpa using hx
        rw [if_pos hx, ih]
        simp only [List.mem_cons]
        constructor
        · tauto
        · rintro ⟨hax, ha⟩
          rcases hax with rfl | hax
          · exact absurd hxs ha
          · exact ⟨hax, ha⟩
      · have hxs : ¬ x ∈ seen := by simpa using hx
        rw [if_neg hx]
        simp only [List.mem_cons, ih, List.mem_cons]
        constructor
        · rintro (rfl | ⟨ha1, ha2⟩)
          · exact ⟨Or.inl rfl, hxs⟩
          · exact ⟨Or.inr ha1, fun h => ha2 (Or.inr h)⟩
        · rintro ⟨rfl | ha1, ha2⟩
          · exact Or.inl rfl
          · by_cases hax : a = x
            · exact Or.inl hax
            · exact Or.inr ⟨ha1, fun h => (by rcases h with h | h; exact hax h; exact ha2 h)⟩

theorem mem_firstDedup (a : String) (l : List String) :
    a ∈ firstDedup l ↔ a ∈ l := by
  rw [firstDedup, mem_firstDedupAux]
  simp

theorem nodup_firstDedupAux : ∀ (l seen : List String), (firstDedupAux l seen).Nodup := by
  intro l
  induction l with
  | nil => intro seen; simp [firstDedupAux]
  | cons x xs ih =>
      intro seen
      simp only [firstDedupAux]
      split
      · exact ih seen
      · refine List.nodup_cons.mpr ⟨?_, ih (x :: seen)⟩
        intro hmem
        have := (mem_firstDedupAux x xs (x :: seen)).mp hmem
        exact this.2 (List.mem_cons_self x seen)

theorem nodup_firstDedup (l : List String) : (firstDedup l).Nodup :=
  nodup_firstDedupAux l []

theorem mem_addCat (a c : String) (l : List String) (h : a ∈ l) : a ∈ addCat l c := by
  unfold addCat
  split
  · exact h
  · exact List.mem_append_left _ h

theorem mem_foldl_addCat (a : String) (names : List String) :
    ∀ l : List String, a ∈ l → a ∈ names.foldl addCat l := by
  induction names with
  | nil => intro l h; exact h
  | cons n ns ih => intro l h; exact ih (addCat l n) (mem_addCat a n l h)

theorem mem_condAdd (a : String) (cond : Bool) (names : List String) (l : List String)
    (h : a ∈ l) : a ∈ condAdd cond names l := by
  unfold condAdd
  split
  · exact mem_foldl_addCat a names l h
  · exact h

theorem mem_newCategoriesOf (a : String) (patterns : PatternDoc) (user : UserDoc)
    (h : a ∈ extractCategories user.ai_categories) : a ∈ newCategoriesOf patterns user := by
  simp only [newCategoriesOf]
  exact mem_condAdd _ _ _ _ (mem_condAdd _ _ _ _ (mem_condAdd _ _ _ _ (mem_condAdd _ _ _ _
    (mem_condAdd _ _ _ _ (mem_condAdd _ _ _ _ (mem_condAdd _ _ _ _ (mem_condAdd _ _ _ _
      ((mem_firstDedup a _).mpr h))))))))

theorem upsertPattern_idem (l : List PatternDoc) (d : PatternDoc) :
    upsertPattern (upsertPattern l d) d = upsertPattern l d := by
  unfold upsertPattern
  by_cases hA : l.any (fun p => p.user_id == d.user_id)
  · simp only [hA, if_true]
    have hA2 : (l.map (fun p => if p.user_id == d.user_id then d else p)).any
        (fun p => p.user_id == d.user_id) = true := by
      rw [List.any_map]
      rw [List.any_eq_true] at hA ⊢
      obtain ⟨x, hx, hpx⟩ := hA
      refine ⟨x, hx, ?_⟩
      simp [Function.comp, hpx]
    simp only [hA2, if_true, List.map_map]
    apply List.map_congr_left
    intro x _
    by_cases hpx : x.user_id == d.user_id
    · simp [Function.comp, hpx]
    · simp [Function.comp, hpx]
  · simp only [hA, if_false, Bool.false_eq_true]
    have hA2 : (l ++ [d]).any (fun p => p.user_id == d.user_id) = true := by
      simp
    simp only [hA2, if_true, List.map_append]
    have hA3 : l.any (fun p => p.user_id == d.user_id) = false := by
      simpa using hA
    have hl : l.map (fun p => if p.user_id == d.user_id then d else p) = l := by
      conv_rhs => rw [← List.map_id l]
      apply List.map_congr_left
      intro x hx
      have hx2 : ¬ (x.user_id == d.user_id) = true := by
        rw [List.any_eq_false] at hA3
        exact hA3 x hx
      simp [hx2]
    rw [hl]
    simp

theorem users_update_search_patterns (db : Db) (uid : String) (now : Int) :
    (_update_search_patterns db uid now).users = db.users := by
  simp only [_update_search_patterns]
  split <;> rfl

theorem history_update_search_patterns (db : Db) (uid : String) (now : Int) :
    (_update_search_patterns db uid now).search_history = db.search_history := by
  simp only [_update_search_patterns]
  split <;> rfl

/-- C3: profile recompute is idempotent. With the search log unchanged and
the same clock reading (hence the same 30-day window and last_updated
stamp), running _update_search_patterns twice leaves exactly the state of
running it once: the recomputed InterestProfile document is byte-identical
and the upsert of an identical document is absorbed. -/
theorem C3_recompute_idempotent (db : Db) (uid : String) (now : Int) :
    _update_search_patterns (_update_search_patterns db uid now) uid now =
      _update_search_patterns db uid now := by
  cases hE : (recentSearches db uid now).isEmpty with
  | true =>
      have h1 : _update_search_patterns db uid now = db := by
        simp only [_update_search_patterns, hE, if_true]
      rw [h1, h1]
  | false =>
      have h1 : _update_search_patterns db uid now =
          Db.mk db.products db.ad_views db.ad_clicks db.users db.search_history
            (upsertPattern db.search_patterns (buildPattern uid now (recentSearches db uid now))) := by
        simp only [_update_search_patterns, hE, Bool.false_eq_true, if_false]
      rw [h1]
      have h2 : recentSearches
          (Db.mk db.products db.ad_views db.ad_clicks db.users db.search_history
            (upsertPattern db.search_patterns (buildPattern uid now (recentSearches db uid now))))
          uid now = recentSearches db uid now := rfl
      simp only [_update_search_patterns, h2, hE, Bool.false_eq_true, if_false]
      simp [upsertPattern_idem]

/-- C8: missing data is a quiet no-op, not an error. A user with no
SearchEvents inside the 30-day window leaves the whole state (the stored
InterestProfile included) untouched, and a user id absent from the users
collection makes the recategorization step return the state unchanged. -/
theorem C8_noop_on_missing (db : Db) (uid : String) (now : Int) :
    (recentSearches db uid now = [] → _update_search_patterns db uid now = db) ∧
    (db.users.find? (fun u => u._id == uid) = none → _recategorize_user db uid now = db) := by
  constructor
  · intro h
    simp only [_update_search_patterns, h, List.isEmpty_nil, if_true]
  · intro h
    simp only [_recategorize_user]
    cases hp : db.search_patterns.find? (fun p => p.user_id == uid) with
    | none => rfl
    | some patterns => rw [h]

theorem C8_noop_on_missing_witness :
    _update_search_patterns dbW8 "u" 0 = dbW8 ∧ _recategorize_user dbW8 "u" 0 = dbW8 :=
  ⟨(C8_noop_on_missing dbW8 "u" 0).1 (by decide),
   (C8_noop_on_missing dbW8 "u" 0).2 (by decide)⟩

theorem find?_users_map (l : List UserDoc) (uid : String) (v : AICats) :
    List.find? (fun u => u._id == uid)
        (l.map (fun u => if u._id == uid then { u with ai_categories := v } else u)) =
      (List.find? (fun u => u._id == uid) l).map (fun u => { u with ai_categories := v }) := by
  induction l with
  | nil => rfl
  | cons x xs ih =>
      simp only [List.map_cons]
      by_cases h : (x._id == uid) = true
      · rw [if_pos h]
        simp only [List.find?_cons, h]
        rfl
      · rw [if_neg h]
        have hF : (x._id == uid) = false := by simpa using h
        simp only [List.find?_cons, hF]
        exact ih

theorem recategorize_user_mono (db : Db) (uid : String) (now : Int) :
    ∀ c ∈ categoryLabels db uid, c ∈ categoryLabels (_recategorize_user db uid now) uid := by
  intro c hc
  unfold _recategorize_user
  cases hp : db.search_patterns.find? (fun p => p.user_id == uid) with
  | none => exact hc
  | some patterns =>
      cases hu : db.users.find? (fun u => u._id == uid) with
      | none => exact hc
      | some user =>
          have hc2 : c ∈ extractCategories user.ai_categories := by
            unfold categoryLabels at hc
            rw [hu] at hc
            exact hc
          simp only [categoryLabels, find?_users_map, hu, Option.map_some]
          cases hcat : user.ai_categories with
          | dictForm d =>
              simp only [hcat, extractCategories]
              exact mem_newCategoriesOf c patterns user hc2
          | listForm cats =>
              simp only [hcat, extractCategories]
              exact mem_newCategoriesOf c patterns user hc2
          | otherForm =>
              simp only [hcat, extractCategories]
              exact mem_newCategoriesOf c patterns user hc2

theorem mem_foldl_growList (a : String) (l : List (String × Int)) :
    ∀ nc : List String, a ∈ nc →
      a ∈ l.foldl (fun nc p => if 15 ≤ p.2 && !(nc.contains p.1) then nc ++ [p.1] else nc) nc := by
  induction l with
  | nil => intro nc h; exact h
  | cons q qs ih =>
      intro nc h
      simp only [List.foldl_cons]
      apply ih
      split
      · exact List.mem_append_left _ h
      · exact h

theorem recategorize_search_mono (db : Db) (uid : String) (now : Int) :
    ∀ c ∈ categoryLabels db uid, c ∈ categoryLabels (recategorize_based_on_search db uid now) uid := by
  intro c hc
  have hbody := hc
  simp only [recategorize_based_on_search]
  cases hu : db.users.find? (fun u => u._id == uid) with
  | none => simp only [hu]; exact hc
  | some user =>
      have hc2 : c ∈ extractCategories user.ai_categories := by
        unfold categoryLabels at hc
        rw [hu] at hc
        exact hc
      simp only [hu]
      cases hE : (List.take 50 (sortStable (fun a b => decide (b.timestamp ≤ a.timestamp))
          (List.filter (fun s => s.user_id == uid) db.search_history))).isEmpty with
      | true =>
          simp only [hE, if_true]
          exact hc
      | false =>
          simp only [hE, Bool.false_eq_true, if_false]
          cases hcat : user.ai_categories with
          | dictForm d =>
              have hc3 : c ∈ d.categories := by
                rw [hcat] at hc2
                exact hc2
              simp only [categoryLabels, find?_users_map, hu, Option.map_some, Option.map,
                extractCategories, List.mem_dedup]
              exact mem_foldl_growList c _ d.categories hc3
          | listForm cats =>
              simp only [hcat]
              exact hc
          | otherForm =>
              simp only [hcat]
              exact hc

theorem categoryLabels_update_search_patterns (db : Db) (uid uid2 : String) (now : Int) :
    categoryLabels (_update_search_patterns db uid now) uid2 = categoryLabels db uid2 := by
  unfold categoryLabels
  rw [users_update_search_patterns]

theorem track_search_mono (db : Db) (uid query : String) (category : Option String)
    (results_count : Nat) (session_id : Option String) (now : Int) :
    ∀ c ∈ categoryLabels db uid,
      c ∈ categoryLabels (track_search db uid query category results_count session_id now) uid := by
  intro c hc
  simp only [track_search]
  apply recategorize_user_mono
  rw [categoryLabels_update_search_patterns]
  exact hc

/-- C2: category labels grow monotonically. Across any sequence of
recategorization passes (tracker-side, categorizer-side, or full tracked
searches) every label present before the passes is still present after
them: labels are only added, never removed. -/
theorem C2_monotonic_categories (db : Db) (uid : String) (passes : List RecatPass) :
    ∀ c ∈ categoryLabels db uid,
      c ∈ categoryLabels (passes.foldl (fun st p => runPass st uid p) db) uid := by
  induction passes generalizing db with
  | nil => intro c hc; exact hc
  | cons p ps ih =>
      intro c hc
      simp only [List.foldl_cons]
      apply ih
      cases p with
      | trackerPass now => exact recategorize_user_mono db uid now c hc
      | categorizerPass now => exact recategorize_search_mono db uid now c hc
      | trackedSearch q cat r sid now => exact track_search_mono db uid q cat r sid now c hc

theorem C2_monotonic_categories_witness :
    "seed_cat" ∈ categoryLabels
      (List.foldl (fun st p => runPass st "u" p) dbW2
        [RecatPass.trackerPass 0, RecatPass.categorizerPass 0]) "u" :=
  C2_monotonic_categories dbW2 "u" [RecatPass.trackerPass 0, RecatPass.categorizerPass 0]
    "seed_cat" (by decide)

/-- C4: CTR gating. An item with at most 10 recorded views gets a
popularity term of exactly 0, and its full relevance score is unchanged by
any click log whatsoever; with more than 10 views the popularity term is
exactly the floor of 10 * clicks / views. -/
theorem C4_ctr_gating (db : Db) (pid : String) :
    (viewsCount db pid ≤ 10 → popularityTerm db pid = 0) ∧
    (10 < viewsCount db pid →
      popularityTerm db pid = (((10 * clicksCount db pid) / viewsCount db pid : Nat) : Int)) ∧
    (∀ (now : Int) (p : Product) (user_categories : List String)
        (interest_scores : List (String × Nat)) (user_age : Option Int)
        (user_location : Option String) (uid : String) (clicks2 : List ClickEvent),
      viewsCount db p._id ≤ 10 →
      _calculate_relevance_score { db with ad_clicks := clicks2 } now p user_categories
          interest_scores user_age user_location uid =
        _calculate_relevance_score db now p user_categories interest_scores user_age
          user_location uid) := by
  refine ⟨?_, ?_, ?_⟩
  · intro h
    have h2 : ¬ 10 < viewsCount db pid := by omega
    simp only [popularityTerm, h2, if_false]
  · intro h
    simp only [popularityTerm, h, if_true]
  · intro now p ucats ints age loc uid clicks2 h
    have hv : viewsCount { db with ad_clicks := clicks2 } p._id = viewsCount db p._id := rfl
    have hd : diversityPenalty { db with ad_clicks := clicks2 } uid p._id now =
        diversityPenalty db uid p._id now := rfl
    have h2 : ¬ 10 < viewsCount db p._id := by omega
    simp only [_calculate_relevance_score, preclampScore, popularityTerm, hv, hd, h2, if_false]

theorem C4_ctr_gating_witness :
    popularityTerm dbW4 "x" = 0 ∧ clicksCount dbW4 "x" = 3 ∧ viewsCount dbW4 "x" = 3 ∧
      _calculate_relevance_score { dbW4 with ad_clicks := [] } 0 { baseProduct with _id := "x" }
          [] [] none none "u" =
        _calculate_relevance_score dbW4 0 { baseProduct with _id := "x" } [] [] none none "u" :=
  ⟨(C4_ctr_gating dbW4 "x").1 (by decide), by decide, by decide,
   (C4_ctr_gating dbW4 "x").2.2 0 { baseProduct with _id := "x" } [] [] none none "u" []
     (by decide)⟩

theorem diversityPenalty_eq (db : Db) (uid pid : String) (now : Int) :
    diversityPenalty db uid pid now = 5 * (recentViewsCount db uid pid now : Int) := by
  simp only [diversityPenalty]
  split
  · rfl
  · rename_i h
    have h0 : recentViewsCount db uid pid now = 0 := by omega
    rw [h0]
    simp

/-- C5 counterexample: with one in-window view by the user, the pre-clamp
score is 5, while the otherwise-identical request with that view removed
scores 0 — the score is 5 points HIGHER, not 5 points lower, because
removing the view also drops the item back under the CTR gate (views fall
from 11 to 10) and erases a popularity term of 10. -/
theorem C5_diversity_counterexample :
    recentViewsCount dbC5 "u" "x" 0 = 1 ∧
    preclampScore dbC5 0 px [] [] none none "u" = 5 ∧
    preclampScore (withoutRecentViews dbC5 "u" "x" 0) 0 px [] [] none none "u" = 0 ∧
    ¬ (preclampScore dbC5 0 px [] [] none none "u" =
        preclampScore (withoutRecentViews dbC5 "u" "x" 0) 0 px [] [] none none "u" -
          5 * (recentViewsCount dbC5 "u" "x" 0 : Int)) := by
  decide

/-- C5 amended: the diversity penalty subtracts exactly 5 points per
in-window view of this item by this user, so whenever the popularity (CTR)
term is unchanged by removing those views — they also count toward the
global view total — the pre-clamp score is exactly 5 k lower than the
otherwise-identical request without them; and views strictly older than 24
hours contribute no penalty at all. -/
theorem C5_diversity_amended (db : Db) (uid pid : String) (now : Int) (p : Product)
    (ucats : List String) (ints : List (String × Nat)) (age : Option Int)
    (loc : Option String) (hp : p._id = pid) :
    (popularityTerm db pid = popularityTerm (withoutRecentViews db uid pid now) pid →
      preclampScore db now p ucats ints age loc uid =
        preclampScore (withoutRecentViews db uid pid now) now p ucats ints age loc uid -
          5 * (recentViewsCount db uid pid now : Int)) ∧
    ((∀ v ∈ db.ad_views, v.user_id = uid → v.product_id = pid →
        ¬ (now - 86400 ≤ v.timestamp)) →
      diversityPenalty db uid pid now = 0) := by
  constructor
  · intro hpop
    subst hp
    have hrv0 : recentViewsCount (withoutRecentViews db uid p._id now) uid p._id now = 0 := by
      unfold recentViewsCount withoutRecentViews
      rw [List.filter_filter]
      simp
    have hviews : viewsCount (withoutRecentViews db uid p._id now) p._id =
        viewsCount (withoutRecentViews db uid p._id now) p._id := rfl
    unfold preclampScore
    rw [diversityPenalty_eq, diversityPenalty_eq, hrv0, hpop]
    push_cast
    ring
  · intro hall
    rw [diversityPenalty_eq]
    have h0 : recentViewsCount db uid pid now = 0 := by
      unfold recentViewsCount
      have : db.ad_views.filter
          (fun v => v.user_id == uid && v.product_id == pid &&
            decide (now - 86400 ≤ v.timestamp)) = [] := by
        rw [List.filter_eq_nil_iff]
        intro v hv
        simp only [Bool.and_eq_true, beq_iff_eq, decide_eq_true_eq, not_and]
        rintro ⟨h1, h2⟩
        exact hall v hv h1 h2
      rw [this]
      rfl
    rw [h0]
    simp

theorem C5_diversity_amended_witness :
    (preclampScore dbW5 0 px [] [] none none "u" =
      preclampScore (withoutRecentViews dbW5 "u" "x" 0) 0 px [] [] none none "u" -
        5 * (recentViewsCount dbW5 "u" "x" 0 : Int)) ∧
    diversityPenalty dbW5b "u" "x" 0 = 0 :=
  ⟨(C5_diversity_amended dbW5 "u" "x" 0 px [] [] none none rfl).1 (by decide),
   (C5_diversity_amended dbW5b "u" "x" 0 px [] [] none none rfl).2 (by decide)⟩

theorem mem_scoredProducts (db : Db) (now : Int) (uid : String) (ucats : List String)
    (ints : List (String × Nat)) (age : Option Int) (loc : Option String) (q : Product × Int)
    (h : q ∈ scoredProducts db now uid ucats ints age loc) :
    q.1 ∈ activeProducts db ∧
    q.2 = _calculate_relevance_score db now q.1 ucats ints age loc uid ∧ 0 < q.2 := by
  unfold scoredProducts at h
  rw [List.mem_filterMap] at h
  obtain ⟨p, hp, heq⟩ := h
  split at heq
  · rename_i hpos
    cases heq
    exact ⟨hp, rfl, hpos⟩
  · cases heq

theorem mem_rankedSlate (db : Db) (uid : String) (u : UserDoc) (limit : Nat) (now : Int)
    (a : Ad) (h : a ∈ rankedSlate db uid u limit now) :
    ∃ q, q ∈ scoredProducts db now uid (userCategoriesOf u) (interestScoresOf db uid)
        u.age u.location ∧ a = formatAd q.1 q.2 := by
  simp only [rankedSlate] at h
  rw [List.mem_map] at h
  obtain ⟨q, hq, rfl⟩ := h
  refine ⟨q, ?_, rfl⟩
  have h2 := List.mem_of_mem_take hq
  rwa [mem_sortStable] at h2

theorem default_ads_score (db : Db) (limit : Nat) (shuffle : List Product → List Product)
    (a : Ad) (h : a ∈ _get_default_ads db limit shuffle) : a.relevance_score = 0 := by
  simp only [_get_default_ads] at h
  rw [List.mem_map] at h
  obtain ⟨p, hp, rfl⟩ := h
  rfl

/-- C1 amended: the slate never carries a negative relevance score (default
slates carry exactly 0); on the personalized path every returned ad has a
strictly positive score, and a candidate whose additive score clamps to
zero is excluded from the ranking rather than kept with score 0. -/
theorem C1_score_floor_amended (db : Db) (user_id : String) (limit : Nat) (now : Int)
    (shuffle : List Product → List Product) (fetchOk : Bool) :
    (∀ a ∈ get_personalized_ads db user_id limit now shuffle fetchOk, 0 ≤ a.relevance_score) ∧
    (∀ u, db.users.find? (fun x => x._id == user_id) = some u → fetchOk = true →
      ∀ a ∈ get_personalized_ads db user_id limit now shuffle fetchOk, 0 < a.relevance_score) ∧
    (∀ (p : Product) (ucats : List String) (ints : List (String × Nat)) (age : Option Int)
        (loc : Option String),
      preclampScore db now p ucats ints age loc user_id ≤ 0 →
      p ∉ (scoredProducts db now user_id ucats ints age loc).map (fun q => q.1)) := by
  refine ⟨?_, ?_, ?_⟩
  · intro a ha
    unfold get_personalized_ads at ha
    cases fetchOk with
    | false =>
        rw [if_neg Bool.false_ne_true] at ha
        have h0 := default_ads_score db limit shuffle a ha
        omega
    | true =>
        rw [if_pos rfl] at ha
        cases hu : db.users.find? (fun x => x._id == user_id) with
        | none =>
            rw [hu] at ha
            have h0 := default_ads_score db limit shuffle a ha
            omega
        | some u =>
            rw [hu] at ha
            obtain ⟨q, hq, rfl⟩ := mem_rankedSlate db user_id u limit now a ha
            have h3 := mem_scoredProducts db now user_id _ _ _ _ q hq
            have h4 : (formatAd q.1 q.2).relevance_score = q.2 := rfl
            omega
  · intro u hu hfk a ha
    subst hfk
    unfold get_personalized_ads at ha
    rw [if_pos rfl, hu] at ha
    obtain ⟨q, hq, rfl⟩ := mem_rankedSlate db user_id u limit now a ha
    have h3 := mem_scoredProducts db now user_id _ _ _ _ q hq
    have h4 : (formatAd q.1 q.2).relevance_score = q.2 := rfl
    omega
  · intro p ucats ints age loc hpre hmem
    rw [List.mem_map] at hmem
    obtain ⟨q, hq, hq1⟩ := hmem
    have h3 := mem_scoredProducts db now user_id ucats ints age loc q hq
    have hcalc : _calculate_relevance_score db now p ucats ints age loc user_id = 0 := by
      unfold _calculate_relevance_score
      exact max_eq_right hpre
    rw [hq1] at h3
    rw [hcalc] at h3
    exact absurd h3.2.2 (by omega)

/-- C1 counterexample: the candidate is slate-eligible and its additive
score is exactly 0 before clamping, yet the returned slate is empty — the
zero-scored item is excluded, not ranked lowest with score 0. -/
theorem C1_score_floor_counterexample :
    dbC1.users.find? (fun x => x._id == "u1") = some u1 ∧
    baseProduct ∈ activeProducts dbC1 ∧
    preclampScore dbC1 0 baseProduct [] [] none none "u1" = 0 ∧
    get_personalized_ads dbC1 "u1" 5 0 id true = [] := by
  decide

theorem C1_score_floor_amended_witness :
    (0 : Int) ≤ (formatAd pW1 10).relevance_score ∧
    (0 : Int) < (formatAd pW1 10).relevance_score ∧
    baseProduct ∉ (scoredProducts dbW1 0 "u1" [] [] none none).map (fun q => q.1) :=
  ⟨(C1_score_floor_amended dbW1 "u1" 5 0 id true).1 (formatAd pW1 10) (by decide),
   (C1_score_floor_amended dbW1 "u1" 5 0 id true).2.1 uW1 (by decide) rfl
     (formatAd pW1 10) (by decide),
   (C1_score_floor_amended dbW1 "u1" 5 0 id true).2.2 baseProduct [] [] none none (by decide)⟩

/-- C6 amended: the candidate set is exactly the approved catalog items
whose stock is strictly positive or absent — an explicit stock of 0 (or
less) excludes the item, and nothing unapproved ever qualifies. -/
theorem C6_candidate_set_amended (db : Db) (p : Product) :
    p ∈ activeProducts db ↔
      p ∈ db.products ∧ p.status = "approved" ∧
        (p.stock = none ∨ ∃ s, p.stock = some s ∧ 0 < s) := by
  unfold activeProducts
  rw [List.mem_filter]
  constructor
  · rintro ⟨h1, h2⟩
    rw [Bool.and_eq_true] at h2
    obtain ⟨hs, hst⟩ := h2
    refine ⟨h1, by simpa using hs, ?_⟩
    cases hstock : p.stock with
    | none => exact Or.inl rfl
    | some s =>
        rw [hstock] at hst
        exact Or.inr ⟨s, rfl, by simpa using hst⟩
  · rintro ⟨h1, h2, h3⟩
    refine ⟨h1, ?_⟩
    rw [Bool.and_eq_true]
    refine ⟨by simpa using h2, ?_⟩
    rcases h3 with h3 | ⟨s, hs, hpos⟩
    · rw [h3]
    · rw [hs]
      simpa using hpos

/-- C6 counterexample: an approved item with stock exactly 0 (nonnegative,
field present) is NOT in the ranker candidate set — the query demands
stock strictly greater than 0 when the field exists. -/
theorem C6_candidate_set_counterexample :
    p0.status = "approved" ∧ p0.stock = some 0 ∧ p0 ∈ dbC6.products ∧
      p0 ∉ activeProducts dbC6 := by
  decide

theorem C6_candidate_set_amended_witness :
    pW1 ∈ activeProducts dbW1 :=
  (C6_candidate_set_amended dbW1 pW1).mpr ⟨by decide, rfl, Or.inl rfl⟩

/-- C7 evaluated at the failing input: an unresolved user (and likewise the
except branch) falls back to the default slate and never throws, but the
slate is NOT ranked by historical click count: product b carries all five
recorded clicks yet ranks after a, because the $lookup join equates the
BSON ObjectId stored in products._id with the BSON string stored in
ad_clicks.product_id, which never match, so every aggregated click_count
is 0 and the sort is a no-op. -/
theorem C7_fallback_default_slate :
    dbC7.users.find? (fun u => u._id == "u") = none ∧
    get_personalized_ads dbC7 "u" 5 0 id true = [formatAd pA 0, formatAd pB 0] ∧
    get_personalized_ads dbC7 "u" 5 0 id false = [formatAd pA 0, formatAd pB 0] ∧
    clicksCount dbC7 "b" = 5 ∧ clicksCount dbC7 "a" = 0 ∧
    lookupClickCount dbC7 pA = 0 ∧ lookupClickCount dbC7 pB = 0 := by
  decide

/-- C9: that concrete registration yields early_career (age band 25-35),
tech_professional (job substring "engineer"), and both of the top-5
thresholded behavioral labels tech_enthusiast and electronics_buyer. -/
theorem C9_registration_example :
    "early_career" ∈ regC9.categories ∧ "tech_professional" ∈ regC9.categories ∧
      ("tech_enthusiast" ∈ regC9.categories ∨ "electronics_buyer" ∈ regC9.categories) := by
  decide

theorem keyword_match_score_le (user_keywords category_keywords : List String) :
    _keyword_match_score user_keywords category_keywords ≤ user_keywords.length :=
  List.length_filter_le _ _

theorem nodup_keys_most_common (l : List String) (n : Nat) :
    ((most_common l n).map (fun q => q.1)).Nodup := by
  unfold most_common
  rw [List.map_take]
  refine List.Nodup.sublist (List.take_sublist _ _) ?_
  have hperm : ((sortStable (fun a b => decide (b.2 ≤ a.2)) (counterPairs l)).map
      (fun q => q.1)).Perm ((counterPairs l).map (fun q => q.1)) :=
    (perm_sortStable _ _).map _
  rw [hperm.nodup_iff]
  unfold counterPairs
  rw [List.map_map]
  have hid : ((fun q : String × Nat => q.1) ∘ fun k => (k, l.count k)) = fun k => k := rfl
  rw [hid]
  have hmapid : (firstDedup l).map (fun k => k) = firstDedup l := List.map_id _
  rw [hmapid]
  exact nodup_firstDedup l

theorem length_most_common_le (l : List String) (n : Nat) :
    (most_common l n).length ≤ n := by
  unfold most_common
  exact List.length_take_le _ _

/-- C10: every per-topic interest score of a recomputed InterestProfile is
a natural number bounded by 20: the profile keys are the distinct top
keywords (a table truncated to 20 entries), each topic score is exactly
the count of those distinct keys that are exact members of the fixed topic
keyword list, and that count can never exceed the 20 keys. -/
theorem C10_interest_scores_bounded (uid : String) (now : Int) (searches : List SearchDoc) :
    ((buildPattern uid now searches).top_keywords.map (fun q => q.1)).Nodup ∧
    ((buildPattern uid now searches).top_keywords.map (fun q => q.1)).length ≤ 20 ∧
    (buildPattern uid now searches).interest_scores =
      _calculate_interest_scores (buildPattern uid now searches).top_keywords
        (buildPattern uid now searches).top_categories ∧
    (buildPattern uid now searches).interest_scores =
      [("education", _keyword_match_score
          ((buildPattern uid now searches).top_keywords.map (fun q => q.1)) education_keywords),
       ("health", _keyword_match_score
          ((buildPattern uid now searches).top_keywords.map (fun q => q.1)) health_keywords),
       ("business", _keyword_match_score
          ((buildPattern uid now searches).top_keywords.map (fun q => q.1)) business_keywords),
       ("employment", _keyword_match_score
          ((buildPattern uid now searches).top_keywords.map (fun q => q.1)) employment_keywords),
       ("technology", _keyword_match_score
          ((buildPattern uid now searches).top_keywords.map (fun q => q.1)) tech_keywords),
       ("transport", _keyword_match_score
          ((buildPattern uid now searches).top_keywords.map (fun q => q.1)) transport_keywords),
       ("property", _keyword_match_score
          ((buildPattern uid now searches).top_keywords.map (fun q => q.1)) property_keywords),
       ("immigration", _keyword_match_score
          ((buildPattern uid now searches).top_keywords.map (fun q => q.1)) immigration_keywords)] ∧
    ∀ kv ∈ (buildPattern uid now searches).interest_scores, kv.2 ≤ 20 := by
  have htk : (buildPattern uid now searches).top_keywords =
      most_common (searches.flatMap (fun s => keywordTokens s.query)) 20 := rfl
  have hnodup : ((buildPattern uid now searches).top_keywords.map (fun q => q.1)).Nodup := by
    rw [htk]
    exact nodup_keys_most_common _ 20
  have hlen : ((buildPattern uid now searches).top_keywords.map (fun q => q.1)).length ≤ 20 := by
    rw [htk, List.length_map]
    exact length_most_common_le _ 20
  refine ⟨hnodup, hlen, rfl, rfl, ?_⟩
  intro kv hkv
  have hb : ∀ cks : List String, _keyword_match_score
      ((buildPattern uid now searches).top_keywords.map (fun q => q.1)) cks ≤ 20 := by
    intro cks
    calc _keyword_match_score _ cks
        ≤ ((buildPattern uid now searches).top_keywords.map (fun q => q.1)).length :=
          keyword_match_score_le _ _
      _ ≤ 20 := hlen
  have hscores : (buildPattern uid now searches).interest_scores =
      _calculate_interest_scores (buildPattern uid now searches).top_keywords
        (buildPattern uid now searches).top_categories := rfl
  rw [hscores] at hkv
  simp only [_calculate_interest_scores, List.mem_cons, List.not_mem_nil, or_false] at hkv
  rcases hkv with rfl | rfl | rfl | rfl | rfl | rfl | rfl | rfl
  all_goals exact hb _

theorem C10_interest_scores_bounded_witness :
    ("education", 3) ∈ (buildPattern "u" 0 [searchW10, searchW10]).interest_scores ∧
      ((("education", 3) : String × Nat)).2 ≤ 20 :=
  ⟨by decide,
   (C10_interest_scores_bounded "u" 0 [searchW10, searchW10]).2.2.2.2 ("education", 3)
     (by decide)⟩

